import Mathlib

/-!
Verification of the LaTeX guardrail/validation flow and the helper functions
of `src/app.py` (AICoverLetterCreater).

Python strings are modelled as `List Char` (Python indexes and slices by
code point, which matches `Char` lists).  Pure helper functions are
translated directly; functions whose behaviour depends on the outside
world (the OpenAI SDK, the `pdflatex` subprocess, HTTP fetching and
BeautifulSoup) are modelled as pure functions of an explicit environment
record that describes the observable behaviour of the external calls.
-/

/-- The set of characters stripped by Python's `str.strip()` (Unicode
whitespace: ASCII whitespace, the C1 separators accepted by `str.isspace`,
and the Unicode space separators). -/
def isPySpace (c : Char) : Bool :=
  c == ' ' || c == '\t' || c == '\n' || c == '\r' ||
  c == Char.ofNat 0x0b || c == Char.ofNat 0x0c ||
  c == Char.ofNat 0x1c || c == Char.ofNat 0x1d ||
  c == Char.ofNat 0x1e || c == Char.ofNat 0x1f ||
  c == Char.ofNat 0x85 || c == Char.ofNat 0xa0 ||
  c == Char.ofNat 0x1680 ||
  (0x2000 ≤ c.toNat && c.toNat ≤ 0x200a) ||
  c == Char.ofNat 0x2028 || c == Char.ofNat 0x2029 ||
  c == Char.ofNat 0x202f || c == Char.ofNat 0x205f ||
  c == Char.ofNat 0x3000

/-- The line boundaries recognised by Python's `str.splitlines`
(`\r\n` is additionally treated as a single boundary). -/
def isLineBreak (c : Char) : Bool :=
  c == '\n' || c == '\r' ||
  c == Char.ofNat 0x0b || c == Char.ofNat 0x0c ||
  c == Char.ofNat 0x1c || c == Char.ofNat 0x1d ||
  c == Char.ofNat 0x1e || c == Char.ofNat 0x85 ||
  c == Char.ofNat 0x2028 || c == Char.ofNat 0x2029

/-- Python `str.lstrip()`. -/
def lstrip (l : List Char) : List Char := l.dropWhile isPySpace

/-- Python `str.rstrip()`. -/
def rstrip (l : List Char) : List Char := (l.reverse.dropWhile isPySpace).reverse

/-- Python `str.strip()`: remove leading and trailing whitespace. -/
def pyStrip (l : List Char) : List Char := rstrip (lstrip l)

/-- Python `str.startswith(pat)` (first argument is the pattern). -/
def startsWithStr : List Char → List Char → Bool
  | [], _ => true
  | _ :: _, [] => false
  | p :: ps, c :: cs => p == c && startsWithStr ps cs

/-- Python substring containment `pat in s`. -/
def containsSub (pat : List Char) : List Char → Bool
  | [] => pat.isEmpty
  | c :: t => startsWithStr pat (c :: t) || containsSub pat t

/-- The characters of the string before the first occurrence of `pat`,
or `none` when `pat` does not occur.  Used to model the non-greedy
regex group `(.*?)` followed by a literal. -/
def takeUntil (pat : List Char) : List Char → Option (List Char)
  | [] => if pat.isEmpty then some [] else none
  | c :: t =>
    if startsWithStr pat (c :: t) then some []
    else (takeUntil pat t).map (fun ln => c :: ln)

/-- Helper for `splitlines`: accumulates the current line (reversed). -/
def splitlinesAux : List Char → List Char → List (List Char)
  | [], cur => [cur.reverse]
  | '\r' :: '\n' :: t, cur =>
    cur.reverse :: (match t with | [] => [] | _ :: _ => splitlinesAux t [])
  | c :: t, cur =>
    if isLineBreak c then
      cur.reverse :: (match t with | [] => [] | _ :: _ => splitlinesAux t [])
    else splitlinesAux t (c :: cur)

/-- Python `str.splitlines()`: the empty string yields `[]`, and a
trailing line boundary produces no trailing empty line. -/
def splitlines (l : List Char) : List (List Char) :=
  match l with
  | [] => []
  | _ :: _ => splitlinesAux l []

/-- Python `"\n".join(lines)`. -/
def joinNL (lines : List (List Char)) : List Char := List.intercalate ['\n'] lines

/-- The triple-backtick code fence marker. -/
def fenceMarker : List Char := "```".data

/-- The Python step `if lines and lines[-1].strip().startswith("```"):
lines = lines[:-1]` of `strip_code_fences`. -/
def dropTrailingFence (lines : List (List Char)) : List (List Char) :=
  match lines.getLast? with
  | none => lines
  | some ln => if startsWithStr fenceMarker (pyStrip ln) then lines.dropLast else lines

/-- Embeds `strip_code_fences` (src/app.py lines 301-309): strip the
string; when it starts with a code fence, drop the first line, drop a
trailing fence line when present, rejoin with newlines and strip again. -/
def strip_code_fences (s : List Char) : List Char :=
  if startsWithStr fenceMarker (pyStrip s) then
    pyStrip (joinNL (dropTrailingFence ((splitlines (pyStrip s)).drop 1)))
  else pyStrip s

/-- `"\\documentclass"`, the document-class structural marker. -/
def documentclassMarker : List Char := "\\documentclass".data

/-- `"\\begin{document}"`, the document-begin structural marker. -/
def beginDocumentMarker : List Char := "\\begin{document}".data

/-- `"\\end{document}"`, the document-end structural marker. -/
def endDocumentMarker : List Char := "\\end{document}".data

/-- `"\\makelettertitle"`, the letter-title body marker. -/
def titleMarker : List Char := "\\makelettertitle".data

/-- `"\\makeletterclosing"`, the letter-closing body marker. -/
def closingMarker : List Char := "\\makeletterclosing".data

/-- The placeholder tokens `["Lorem ipsum", "Lorem Ipsum"]`
(src/app.py line 672). -/
def placeholderTokens : List (List Char) := ["Lorem ipsum".data, "Lorem Ipsum".data]

/-- The de-fenced and stripped model output, the local variable
`latex_filled` of the export flow (src/app.py line 664):
`strip_code_fences(latex_filled).strip()`. -/
def latex_filled (raw : List Char) : List Char := pyStrip (strip_code_fences raw)

/-- The structural check (src/app.py lines 666-668): `not ("\\documentclass"
in s and "\\begin{document}" in s and "\\end{document}" in s)`. -/
def missing_structure (d : List Char) : Bool :=
  !(containsSub documentclassMarker d && containsSub beginDocumentMarker d &&
    containsSub endDocumentMarker d)

/-- Embeds `re.search(r"\\makelettertitle(.*?)\\makeletterclosing", s,
flags=re.DOTALL)` (src/app.py line 670): the regex engine tries start
positions left to right, so the match begins at the first occurrence of
the title marker that is followed by an occurrence of the closing marker,
and the non-greedy group ends at the first closing marker after it. -/
def reFindBody : List Char → Option (List Char)
  | [] => none
  | c :: t =>
    if startsWithStr titleMarker (c :: t) then
      match takeUntil closingMarker ((c :: t).drop titleMarker.length) with
      | some body => some body
      | none => reFindBody t
    else reFindBody t

/-- `letter_body` (src/app.py line 671): the regex group when the body
markers match, otherwise the whole document. -/
def letter_body (d : List Char) : List Char := (reFindBody d).getD d

/-- The placeholder check (src/app.py line 673):
`any(tok in letter_body for tok in placeholder_tokens)`. -/
def still_placeholder (body : List Char) : Bool :=
  placeholderTokens.any (fun tok => containsSub tok body)

/-- The outcomes of the LaTeX export guardrails (the two `st.error`
branches of src/app.py lines 675-679). -/
inductive ExportError where
  | structureIncomplete
  | placeholderRemains
deriving DecidableEq

/-- Embeds the LaTeX export guardrail flow (src/app.py lines 663-687):
de-fence and strip the model output, reject when the structure is
incomplete, otherwise reject when the letter body still contains a
placeholder token, otherwise accept; the accepted string is the exact
string offered as the `.tex` download and passed to
`compile_latex_to_pdf`. -/
def latex_export_flow (raw : List Char) : Except ExportError (List Char) :=
  if missing_structure (latex_filled raw) then .error .structureIncomplete
  else if still_placeholder (letter_body (latex_filled raw)) then .error .placeholderRemains
  else .ok (latex_filled raw)

/-- Python slicing `l[i:]` for an `Int` index (a negative index counts
from the end, clamped at the start of the list). -/
def pySliceFrom (l : List Char) (i : Int) : List Char :=
  if i < 0 then l.drop (l.length - min (-i).toNat l.length)
  else l.drop i.toNat

/-- The elision marker inserted by `truncate`. -/
def elisionMark : List Char := "\n\n…(gekürzt)…\n\n".data

/-- Embeds `truncate` (src/app.py lines 152-157); `max_chars` defaults to
`24000` at every call site.  The tail slice is Python's
`text[-max_chars//2:]`, i.e. slicing from the floor division
`(-max_chars) // 2`. -/
def truncate (text : List Char) (max_chars : Nat) : List Char :=
  if text.length ≤ max_chars then text
  else
    text.take (max_chars / 2) ++ elisionMark ++
      pySliceFrom text (Int.fdiv (-(max_chars : Int)) 2)

/-- The observable behaviour of the external world during one
`compile_latex_to_pdf` invocation: whether `shutil.which("pdflatex")`
finds the binary; whether the unguarded setup raises
(`tempfile.TemporaryDirectory()` at line 315 or
`tex_path.write_text(tex_source, encoding="utf-8")` at line 318 — e.g.
an `OSError` on a full temp filesystem, or a `UnicodeEncodeError` when
`tex_source` contains a lone surrogate — both run *before* the `try`
at line 319); whether the guarded block raises (`subprocess.run`
timeout or any other exception, including reading `main.pdf`); and
otherwise the process exit code, its captured output streams, and
whether `main.pdf` exists afterwards. -/
structure CompileEnv where
  pdflatexFound : Bool
  setupRaises : Bool
  setupExceptionMsg : List Char
  raisesException : Bool
  exceptionMsg : List Char
  returncode : Int
  stdoutLog : List Char
  stderrLog : List Char
  pdfExists : Bool
  pdfBytes : List Nat

/-- The message returned when `pdflatex` is not on the PATH
(src/app.py line 314). -/
def pdflatexNotFoundMsg : List Char :=
  "pdflatex nicht gefunden. Bitte installiere TeX Live/MiKTeX + 'moderncv' oder kompiliere die .tex-Datei lokal.".data

/-- The prefix of the message returned when the guarded block raises
(src/app.py line 329). -/
def compileErrPrefix : List Char := "LaTeX-Kompilierungsfehler: ".data

/-- Embeds `compile_latex_to_pdf` (src/app.py lines 312-329) as a
function of the external environment; `Except` models whether an
exception escapes to the caller.  The missing-binary check comes first
and returns `(None, message)`.  The temporary-directory creation and
the `main.tex` write (lines 315-318) run before the `try`, so an
exception there propagates uncaught (`.error`).  An exception inside
the guarded block is caught and gives `(None, message)`.  Otherwise the
combined log `stdout + "\n" + stderr` is returned, with the PDF bytes
exactly when the process exited with code `0` and `main.pdf` exists. -/
def compile_latex_to_pdf (env : CompileEnv) :
    Except (List Char) (Option (List Nat) × Option (List Char)) :=
  if !env.pdflatexFound then .ok (none, some pdflatexNotFoundMsg)
  else if env.setupRaises then .error env.setupExceptionMsg
  else if env.raisesException then .ok (none, some (compileErrPrefix ++ env.exceptionMsg))
  else
    if env.returncode == 0 && env.pdfExists then
      .ok (some env.pdfBytes, some (env.stdoutLog ++ '\n' :: env.stderrLog))
    else .ok (none, some (env.stdoutLog ++ '\n' :: env.stderrLog))

/-- The observable behaviour of one `_do_call` attempt inside
`call_openai_chat`: it returns text, raises `UnicodeEncodeError`, or
raises some other exception. -/
inductive ApiCallResult where
  | ok (text : List Char)
  | raisesUnicodeError
  | raisesOther (msg : List Char)
deriving DecidableEq

/-- The external environment of one `call_openai_chat` invocation:
whether the OpenAI SDK is importable, and the behaviour of each of the
up-to-three `_do_call` attempts (the original prompts, the UTF-8
re-encoded prompts, and the ASCII-transliterated prompts). -/
structure OpenAIEnv where
  sdkAvailable : Bool
  firstCall : ApiCallResult
  fallbackCall : ApiCallResult
  asciiCall : ApiCallResult

/-- Error value used when a `UnicodeEncodeError` raised by a fallback
attempt propagates out of `call_openai_chat`. -/
def unicodeErrMsg : List Char := "UnicodeEncodeError".data

/-- Embeds `call_openai_chat` (src/app.py lines 269-298).  `Except` models
whether an exception escapes to the caller.  Python semantics: the
`except UnicodeEncodeError` and `except Exception` clauses belong to the
same `try`, so an exception raised *inside* the `except
UnicodeEncodeError` handler (by the second or third `_do_call`) is not
caught by `except Exception` and propagates; the inner `try` around the
second call catches only `UnicodeEncodeError`. -/
def call_openai_chat (env : OpenAIEnv) : Except (List Char) (List Char) :=
  if !env.sdkAvailable then .ok []
  else
    match env.firstCall with
    | .ok t => .ok t
    | .raisesOther _ => .ok []
    | .raisesUnicodeError =>
      match env.fallbackCall with
      | .ok t => .ok t
      | .raisesOther m => .error m
      | .raisesUnicodeError =>
        match env.asciiCall with
        | .ok t => .ok t
        | .raisesOther m => .error m
        | .raisesUnicodeError => .error unicodeErrMsg

/-- The external environment of one `fetch_text_from_url` invocation:
whether `requests`/`beautifulsoup4` are importable, whether
`requests.get`/`raise_for_status` raises, the response `Content-Type`
header and body text, and the text extracted by BeautifulSoup
(`soup.get_text(separator="\n")` after decomposing
script/style/noscript/header/footer/nav/aside elements — the library
call is external, so its output is an oracle input). -/
structure FetchEnv where
  libsAvailable : Bool
  raisesException : Bool
  contentType : List Char
  respText : List Char
  soupText : List Char

/-- Embeds `fetch_text_from_url` (src/app.py lines 332-353): on missing
libraries or a raised exception an empty string is returned (after
`st.error`); on a non-text, non-HTML content type the stripped raw
response text truncated to 200000 characters; otherwise the
soup-extracted text is split into lines, each line stripped, empty lines
dropped, the rest joined with newlines and truncated to 200000
characters. -/
def fetch_text_from_url (env : FetchEnv) : List Char :=
  if !env.libsAvailable then []
  else if env.raisesException then []
  else if !(containsSub "text".data env.contentType) &&
          !(containsSub "html".data env.contentType) then
    (pyStrip env.respText).take 200000
  else
    (joinNL (((splitlines env.soupText).map pyStrip).filter (fun ln => !ln.isEmpty))).take 200000

theorem startsWithStr_ex : ∀ (p l : List Char), startsWithStr p l = true → ∃ t, l = p ++ t
  | [], l, _ => ⟨l, rfl⟩
  | _ :: _, [], h => by simp [startsWithStr] at h
  | p :: ps, c :: cs, h => by
    simp only [startsWithStr, Bool.and_eq_true, beq_iff_eq] at h
    obtain ⟨rfl, h2⟩ := h
    obtain ⟨t, rfl⟩ := startsWithStr_ex ps cs h2
    exact ⟨t, rfl⟩

theorem startsWithStr_append_self : ∀ (p t : List Char), startsWithStr p (p ++ t) = true
  | [], _ => rfl
  | p :: ps, t => by simp [startsWithStr, startsWithStr_append_self ps t]

theorem dropWhile_dropWhile (q : Char → Bool) :
    ∀ l : List Char, (l.dropWhile q).dropWhile q = l.dropWhile q
  | [] => rfl
  | c :: t => by
    by_cases h : q c = true
    · simp [List.dropWhile_cons, h, dropWhile_dropWhile q t]
    · simp [List.dropWhile_cons, h]

theorem exists_append_dropWhile (q : Char → Bool) :
    ∀ l : List Char, ∃ s, l = s ++ l.dropWhile q
  | [] => ⟨[], rfl⟩
  | c :: t => by
    by_cases h : q c = true
    · obtain ⟨s, hs⟩ := exists_append_dropWhile q t
      refine ⟨c :: s, ?_⟩
      simp only [List.dropWhile_cons, h, if_true, List.cons_append]
      exact congrArg (c :: ·) hs
    · exact ⟨[], by simp [List.dropWhile_cons, h]⟩

theorem lstrip_eq_self_append (x u : List Char) (h : lstrip (x ++ u) = x ++ u) :
    lstrip x = x := by
  cases x with
  | nil => rfl
  | cons c x' =>
    by_cases hc : isPySpace c = true
    · exfalso
      unfold lstrip at h
      rw [List.cons_append, List.dropWhile_cons, if_pos hc] at h
      obtain ⟨s, hs⟩ := exists_append_dropWhile isPySpace (x' ++ u)
      have hl := congrArg List.length h
      have hl2 := congrArg List.length hs
      simp [List.length_append] at hl hl2
      omega
    · unfold lstrip
      rw [List.dropWhile_cons, if_neg hc]

theorem rstrip_idem (l : List Char) : rstrip (rstrip l) = rstrip l := by
  unfold rstrip
  rw [List.reverse_reverse, dropWhile_dropWhile]

theorem lstrip_pyStrip (l : List Char) : lstrip (pyStrip l) = pyStrip l := by
  show lstrip (rstrip (lstrip l)) = rstrip (lstrip l)
  have haa : lstrip (lstrip l) = lstrip l := dropWhile_dropWhile _ l
  obtain ⟨s, hs⟩ := exists_append_dropWhile isPySpace (lstrip l).reverse
  have hdec : lstrip l = rstrip (lstrip l) ++ s.reverse := by
    unfold rstrip
    conv_lhs => rw [← List.reverse_reverse (lstrip l), hs]
    rw [List.reverse_append]
  apply lstrip_eq_self_append (rstrip (lstrip l)) s.reverse
  rw [← hdec]
  exact haa

theorem pyStrip_idem (l : List Char) : pyStrip (pyStrip l) = pyStrip l := by
  show rstrip (lstrip (pyStrip l)) = pyStrip l
  rw [lstrip_pyStrip]
  show rstrip (rstrip (lstrip l)) = _
  rw [rstrip_idem]
  rfl

theorem strip_code_fences_eq (s : List Char) :
    strip_code_fences s =
      if startsWithStr fenceMarker (pyStrip s) then
        pyStrip (joinNL (dropTrailingFence ((splitlines (pyStrip s)).drop 1)))
      else pyStrip s := rfl

theorem strip_code_fences_stripped (s : List Char) :
    pyStrip (strip_code_fences s) = strip_code_fences s := by
  rw [strip_code_fences_eq]
  split
  · exact pyStrip_idem _
  · exact pyStrip_idem _

theorem takeUntil_some (pat : List Char) :
    ∀ r b, takeUntil pat r = some b → ∃ ω, r = b ++ pat ++ ω
  | [], b, h => by
    unfold takeUntil at h
    split at h
    · rename_i hp
      injection h with h'
      subst h'
      have hpn : pat = [] := List.isEmpty_iff.mp hp
      exact ⟨[], by simp [hpn]⟩
    · exact absurd h (by simp)
  | c :: t, b, h => by
    unfold takeUntil at h
    split at h
    · rename_i hp
      obtain ⟨ω, hω⟩ := startsWithStr_ex pat (c :: t) hp
      injection h with h'
      subst h'
      exact ⟨ω, by simp [hω]⟩
    · cases hb : takeUntil pat t with
      | none => rw [hb] at h; simp at h
      | some b' =>
        rw [hb] at h
        simp only [Option.map_some'] at h
        injection h with h'
        subst h'
        obtain ⟨ω, hω⟩ := takeUntil_some pat t b' hb
        exact ⟨ω, by simp [hω]⟩

theorem takeUntil_not_contains (pat : List Char) (hpat : pat ≠ []) :
    ∀ r b, takeUntil pat r = some b → containsSub pat b = false
  | [], b, h => by
    unfold takeUntil at h
    split at h
    · rename_i hp
      exact absurd (List.isEmpty_iff.mp hp) hpat
    · exact absurd h (by simp)
  | c :: t, b, h => by
    unfold takeUntil at h
    split at h
    · injection h with h'
      subst h'
      unfold containsSub
      simpa [List.isEmpty_iff]
    · rename_i hsw
      cases hb : takeUntil pat t with
      | none => rw [hb] at h; simp at h
      | some b' =>
        rw [hb] at h
        simp only [Option.map_some'] at h
        injection h with h'
        subst h'
        have ih := takeUntil_not_contains pat hpat t b' hb
        unfold containsSub
        rw [ih, Bool.or_false]
        by_contra hc
        rw [Bool.not_eq_false] at hc
        obtain ⟨δ, hδ⟩ := startsWithStr_ex pat (c :: b') hc
        obtain ⟨ω, hω⟩ := takeUntil_some pat t b' hb
        have h1 : c :: t = (c :: b') ++ (pat ++ ω) := by
          rw [hω]
          simp [List.append_assoc]
        have hct : c :: t = pat ++ (δ ++ (pat ++ ω)) := by
          rw [h1, hδ, List.append_assoc]
        rw [hct] at hsw
        exact hsw (startsWithStr_append_self pat _)

theorem containsSub_drop_false (pat : List Char) :
    ∀ (l : List Char) (n : Nat), containsSub pat l = false →
      containsSub pat (l.drop n) = false
  | l, 0, h => by simpa using h
  | [], _ + 1, h => by simpa using h
  | _ :: t, n + 1, h => by
    rw [List.drop_succ_cons]
    unfold containsSub at h
    rw [Bool.or_eq_false_iff] at h
    exact containsSub_drop_false pat t n h.2

theorem takeUntil_none_of_not_contains (pat : List Char) :
    ∀ l : List Char, containsSub pat l = false → takeUntil pat l = none
  | [], h => by
    unfold containsSub at h
    unfold takeUntil
    simp [h]
  | c :: t, h => by
    unfold containsSub at h
    rw [Bool.or_eq_false_iff] at h
    unfold takeUntil
    rw [if_neg (by simp [h.1]), takeUntil_none_of_not_contains pat t h.2]
    rfl

theorem reFindBody_none_of_no_title :
    ∀ l : List Char, containsSub titleMarker l = false → reFindBody l = none
  | [], _ => rfl
  | c :: t, h => by
    unfold containsSub at h
    rw [Bool.or_eq_false_iff] at h
    unfold reFindBody
    rw [if_neg (by simp [h.1])]
    exact reFindBody_none_of_no_title t h.2

theorem reFindBody_none_of_no_closing :
    ∀ l : List Char, containsSub closingMarker l = false → reFindBody l = none
  | [], _ => rfl
  | c :: t, h => by
    have h2 : containsSub closingMarker t = false := by
      unfold containsSub at h
      rw [Bool.or_eq_false_iff] at h
      exact h.2
    unfold reFindBody
    by_cases hsw : startsWithStr titleMarker (c :: t) = true
    · rw [if_pos hsw,
        takeUntil_none_of_not_contains closingMarker _
          (containsSub_drop_false closingMarker (c :: t) titleMarker.length h)]
      exact reFindBody_none_of_no_closing t h2
    · rw [if_neg hsw]
      exact reFindBody_none_of_no_closing t h2

theorem reFindBody_decomp :
    ∀ l b, reFindBody l = some b →
      (∃ α ω, l = α ++ (titleMarker ++ (b ++ (closingMarker ++ ω)))) ∧
        containsSub closingMarker b = false
  | [], b, h => by simp [reFindBody] at h
  | c :: t, b, h => by
    unfold reFindBody at h
    by_cases hsw : startsWithStr titleMarker (c :: t) = true
    · rw [if_pos hsw] at h
      cases htu : takeUntil closingMarker ((c :: t).drop titleMarker.length) with
      | some body =>
        rw [htu] at h
        injection h with h'
        subst h'
        obtain ⟨r, hr⟩ := startsWithStr_ex _ _ hsw
        have hdrop : (c :: t).drop titleMarker.length = r := by
          rw [hr, List.drop_left]
        rw [hdrop] at htu
        obtain ⟨ω, hω⟩ := takeUntil_some _ _ _ htu
        refine ⟨⟨[], ω, ?_⟩,
          takeUntil_not_contains closingMarker (by decide) _ _ htu⟩
        rw [List.nil_append, hr, hω]
        simp [List.append_assoc]
      | none =>
        rw [htu] at h
        replace h : reFindBody t = some b := h
        obtain ⟨⟨α, ω, hα⟩, hc⟩ := reFindBody_decomp t b h
        exact ⟨⟨c :: α, ω, by rw [List.cons_append, hα]⟩, hc⟩
    · rw [if_neg hsw] at h
      obtain ⟨⟨α, ω, hα⟩, hc⟩ := reFindBody_decomp t b h
      exact ⟨⟨c :: α, ω, by rw [List.cons_append, hα]⟩, hc⟩

theorem latex_export_flow_eq (raw : List Char) :
    latex_export_flow raw =
      if missing_structure (latex_filled raw) then .error .structureIncomplete
      else if still_placeholder (letter_body (latex_filled raw)) then
        .error .placeholderRemains
      else .ok (latex_filled raw) := rfl

/-- C1: for every generated LaTeX string that, after de-fencing (and the
stripping the export flow applies), is missing at least one of the three
structural markers, the export flow rejects it with the
structure-incomplete error, regardless of any other content. -/
theorem C1_missing_structure_rejected (raw : List Char)
    (h : missing_structure (latex_filled raw) = true) :
    latex_export_flow raw = .error .structureIncomplete := by
  rw [latex_export_flow_eq, if_pos h]

/-- C1 witness: the spec's scenario of an input lacking the document-end
marker is rejected with the structure-incomplete error. -/
theorem C1_witness :
    missing_structure (latex_filled
      "\\documentclass{x}\\begin{document}\\makelettertitle Hello \\makeletterclosing".data)
      = true ∧
    latex_export_flow
      "\\documentclass{x}\\begin{document}\\makelettertitle Hello \\makeletterclosing".data
      = .error .structureIncomplete :=
  ⟨by decide, C1_missing_structure_rejected _ (by decide)⟩

/-- C2: for every structurally complete generated string whose isolated
letter body contains a placeholder token ("Lorem ipsum" or "Lorem
Ipsum"), the export flow rejects it with the placeholder-text error. -/
theorem C2_placeholder_rejected (raw : List Char)
    (h1 : missing_structure (latex_filled raw) = false)
    (h2 : still_placeholder (letter_body (latex_filled raw)) = true) :
    latex_export_flow raw = .error .placeholderRemains := by
  rw [latex_export_flow_eq, if_neg (by simp [h1]), if_pos h2]

/-- C2 witness: the spec's fenced Lorem-ipsum scenario is structurally
complete yet rejected with the placeholder-text error. -/
theorem C2_witness :
    missing_structure (latex_filled
      "```\n\\documentclass{x}\\begin{document}\\makelettertitle Lorem ipsum \\makeletterclosing\\end{document}\n```".data)
      = false ∧
    still_placeholder (letter_body (latex_filled
      "```\n\\documentclass{x}\\begin{document}\\makelettertitle Lorem ipsum \\makeletterclosing\\end{document}\n```".data))
      = true ∧
    latex_export_flow
      "```\n\\documentclass{x}\\begin{document}\\makelettertitle Lorem ipsum \\makeletterclosing\\end{document}\n```".data
      = .error .placeholderRemains :=
  ⟨by decide, by decide, C2_placeholder_rejected _ (by decide) (by decide)⟩

/-- C3 counterexample: de-fencing is not idempotent.  On the input
consisting of the three lines "(fence)a", "(fence)b", "c" one application
keeps the line "(fence)b" at the head of the result, and a second
application strips again, giving a different string. -/
theorem C3_counterexample :
    strip_code_fences (strip_code_fences "```a\n```b\nc".data) ≠
      strip_code_fences "```a\n```b\nc".data := by decide

/-- C3 amended: de-fencing is idempotent on every string whose de-fenced
result does not itself start with a triple-backtick fence (in
particular on every de-fenced string not starting with a fence); a
de-fenced result that still starts with a fence can be stripped again. -/
theorem C3_defencing_idempotent_unless_refenced (s : List Char)
    (h : startsWithStr fenceMarker (strip_code_fences s) = false) :
    strip_code_fences (strip_code_fences s) = strip_code_fences s := by
  have hs := strip_code_fences_stripped s
  rw [strip_code_fences_eq (strip_code_fences s), hs, h]
  simp

/-- C3 witness: a fenced document de-fences to a fence-free string, on
which de-fencing is idempotent. -/
theorem C3_witness :
    startsWithStr fenceMarker (strip_code_fences "```\nabc\n```".data) = false ∧
    strip_code_fences (strip_code_fences "```\nabc\n```".data) =
      strip_code_fences "```\nabc\n```".data :=
  ⟨by decide, C3_defencing_idempotent_unless_refenced _ (by decide)⟩

/-- C4 counterexample: no typo patch is applied anywhere in the export
flow.  A structurally complete document containing a misspelled
moderncv style-name command is accepted completely unchanged, the
misspelling still present in the string handed to the compiler. -/
theorem C4_counterexample :
    latex_export_flow
      "\\documentclass{moderncv}\\begin{document}\\moderncvstlye{classic}\\makelettertitle Dear team \\makeletterclosing\\end{document}".data
      = .ok "\\documentclass{moderncv}\\begin{document}\\moderncvstlye{classic}\\makelettertitle Dear team \\makeletterclosing\\end{document}".data
    ∧ containsSub "\\moderncvstlye".data
      "\\documentclass{moderncv}\\begin{document}\\moderncvstlye{classic}\\makelettertitle Dear team \\makeletterclosing\\end{document}".data
      = true :=
  ⟨rfl, by decide⟩

/-- C4 amended: the export flow applies no find-and-replace correction of
any kind: every accepted LaTeX string is handed to compilation exactly
as produced by de-fencing and stripping the model output. -/
theorem C4_accepted_passed_unchanged (raw out : List Char)
    (h : latex_export_flow raw = .ok out) : out = latex_filled raw := by
  rw [latex_export_flow_eq] at h
  split at h
  · exact absurd h (by simp)
  · split at h
    · exact absurd h (by simp)
    · injection h with h'
      exact h'.symm

/-- C4 witness: an accepted document equals its de-fenced, stripped
input verbatim. -/
theorem C4_witness :
    latex_export_flow
      "\\documentclass{a}\\begin{document}\\makelettertitle Hi \\makeletterclosing\\end{document}".data
      = .ok "\\documentclass{a}\\begin{document}\\makelettertitle Hi \\makeletterclosing\\end{document}".data
    ∧ "\\documentclass{a}\\begin{document}\\makelettertitle Hi \\makeletterclosing\\end{document}".data
      = latex_filled
        "\\documentclass{a}\\begin{document}\\makelettertitle Hi \\makeletterclosing\\end{document}".data :=
  ⟨rfl, C4_accepted_passed_unchanged _ _ rfl⟩

/-- C5: whenever the body regex matches, the isolated letter body is the
group between a title marker and the first following closing marker: the
document decomposes as `α ++ title ++ body ++ closing ++ ω`, and the body
contains no closing marker (the match is non-greedy), so the body never
includes text outside the marker pair. -/
theorem C5_body_between_markers (l b : List Char) (h : reFindBody l = some b) :
    letter_body l = b ∧
    (∃ α ω, l = α ++ (titleMarker ++ (b ++ (closingMarker ++ ω)))) ∧
    containsSub closingMarker b = false := by
  obtain ⟨h1, h2⟩ := reFindBody_decomp l b h
  refine ⟨?_, h1, h2⟩
  unfold letter_body
  rw [h]
  rfl

/-- C5 witness: the spec's scenario document is accepted and its isolated
body is exactly " Hello world ". -/
theorem C5_witness :
    (letter_body
        "\\documentclass{x}\\begin{document}\\makelettertitle Hello world \\makeletterclosing\\end{document}".data
        = " Hello world ".data ∧
      (∃ α ω,
        "\\documentclass{x}\\begin{document}\\makelettertitle Hello world \\makeletterclosing\\end{document}".data
          = α ++ (titleMarker ++ (" Hello world ".data ++ (closingMarker ++ ω)))) ∧
      containsSub closingMarker " Hello world ".data = false) ∧
    latex_export_flow
      "\\documentclass{x}\\begin{document}\\makelettertitle Hello world \\makeletterclosing\\end{document}".data
      = .ok "\\documentclass{x}\\begin{document}\\makelettertitle Hello world \\makeletterclosing\\end{document}".data :=
  ⟨C5_body_between_markers _ (" Hello world ".data) (by decide), rfl⟩

/-- C6: when a body marker is absent from the de-fenced document (the
title marker or the closing marker does not occur), the regex cannot
match, the whole document is treated as the letter body, and the flow
still runs to completion, applying the placeholder check to the whole
document. -/
theorem C6_fallback_whole_body (raw : List Char)
    (h : containsSub titleMarker (latex_filled raw) = false ∨
         containsSub closingMarker (latex_filled raw) = false) :
    letter_body (latex_filled raw) = latex_filled raw ∧
    latex_export_flow raw =
      (if missing_structure (latex_filled raw) then
        Except.error ExportError.structureIncomplete
      else if still_placeholder (latex_filled raw) then
        Except.error ExportError.placeholderRemains
      else Except.ok (latex_filled raw)) := by
  have hnone : reFindBody (latex_filled raw) = none := by
    cases h with
    | inl h => exact reFindBody_none_of_no_title _ h
    | inr h => exact reFindBody_none_of_no_closing _ h
  have hb : letter_body (latex_filled raw) = latex_filled raw := by
    unfold letter_body
    rw [hnone]
    rfl
  refine ⟨hb, ?_⟩
  rw [latex_export_flow_eq, hb]

/-- C6 witness: a document without body markers falls back to the whole
document as body. -/
theorem C6_witness :
    containsSub titleMarker (latex_filled
      "\\documentclass{x}\\begin{document}plain text\\end{document}".data) = false ∧
    letter_body (latex_filled
      "\\documentclass{x}\\begin{document}plain text\\end{document}".data)
      = latex_filled "\\documentclass{x}\\begin{document}plain text\\end{document}".data :=
  ⟨by decide, (C6_fallback_whole_body _ (Or.inl (by decide))).1⟩

/-- C7 counterexample: the temporary-directory creation and the
`main.tex` write run before the `try` block, so when the binary is
present and that setup raises (e.g. `OSError` on a full temp
filesystem), the exception propagates to the caller instead of being
reported as a failure tuple with a log — refuting "it never raises an
exception to the caller". -/
theorem C7_counterexample :
    compile_latex_to_pdf
      ⟨true, true, "No space left on device".data, false, [], 0, [], [], false, []⟩
      = .error "No space left on device".data := rfl

/-- C7 amended: when the binary is found and the unguarded setup (temp
directory creation, `main.tex` write) raises, the exception propagates
to the caller; in every other case no exception escapes, a log is
reported, and success (a `some` PDF component) holds exactly when the
binary was found, the guarded block raised no exception or timeout, the
process exited with code 0 and `main.pdf` exists. -/
theorem C7_success_iff_unless_setup_raises (env : CompileEnv) :
    (env.pdflatexFound = true → env.setupRaises = true →
      compile_latex_to_pdf env = .error env.setupExceptionMsg) ∧
    ((env.pdflatexFound = false ∨ env.setupRaises = false) →
      ∃ pdf log, compile_latex_to_pdf env = .ok (pdf, some log) ∧
        pdf.isSome = (env.pdflatexFound && !env.raisesException &&
          (env.returncode == 0) && env.pdfExists)) := by
  obtain ⟨found, sraise, smsg, raises, msg, rc, so, se, pe, pb⟩ := env
  constructor
  · intro h1 h2
    subst h1
    subst h2
    rfl
  · intro h
    cases found with
    | false => exact ⟨none, pdflatexNotFoundMsg, rfl, rfl⟩
    | true =>
      have hs : sraise = false := by
        cases h with
        | inl h => exact absurd h (by simp)
        | inr h => exact h
      subst hs
      cases raises with
      | true => exact ⟨none, compileErrPrefix ++ msg, rfl, rfl⟩
      | false =>
        by_cases hrc : rc = 0 <;> cases pe <;>
          simp [compile_latex_to_pdf, hrc]

/-- C7 witness: a setup failure propagates, while the spec's scenario of
a process that exits 0 without producing `main.pdf` is reported as
failure with a log. -/
theorem C7_witness :
    compile_latex_to_pdf
      ⟨true, true, "disk full".data, false, [], 0, [], [], true, []⟩
      = .error "disk full".data ∧
    (∃ pdf log,
      compile_latex_to_pdf ⟨true, false, [], false, [], 0, "log".data, [], false, []⟩
        = .ok (pdf, some log) ∧
      pdf.isSome = (true && !false && ((0 : Int) == 0) && false)) :=
  ⟨(C7_success_iff_unless_setup_raises _).1 rfl rfl,
   (C7_success_iff_unless_setup_raises _).2 (Or.inr rfl)⟩

/-- C8 counterexample: when the first API call raises
`UnicodeEncodeError` and both Unicode fallback attempts fail, the second
fallback's exception is raised inside the `except UnicodeEncodeError`
handler, which the sibling `except Exception` clause does not cover, so
the exception propagates to the caller instead of an empty string being
returned. -/
theorem C8_counterexample :
    call_openai_chat
      ⟨true, .raisesUnicodeError, .raisesUnicodeError, .raisesOther "network error".data⟩
      = .error "network error".data := rfl

/-- C8 amended: the empty string is returned when the SDK is unavailable
or when the first API call raises a non-Unicode exception; but when the
first call raises `UnicodeEncodeError`, an exception raised by the
fallback attempts propagates to the caller (here: a non-Unicode
exception from the second attempt). -/
theorem C8_empty_on_failure_unless_fallback_raises (env : OpenAIEnv) :
    (env.sdkAvailable = false → call_openai_chat env = .ok []) ∧
    (∀ m, env.sdkAvailable = true → env.firstCall = .raisesOther m →
      call_openai_chat env = .ok []) ∧
    (∀ m, env.sdkAvailable = true → env.firstCall = .raisesUnicodeError →
      env.fallbackCall = .raisesOther m → call_openai_chat env = .error m) := by
  obtain ⟨sdk, f1, f2, f3⟩ := env
  refine ⟨?_, ?_, ?_⟩
  · intro h
    subst h
    rfl
  · intro m h hf
    subst h
    subst hf
    rfl
  · intro m h h1 h2
    subst h
    subst h1
    subst h2
    rfl

/-- C8 witness: concrete instances of the three amended branches. -/
theorem C8_witness :
    call_openai_chat ⟨false, .ok "x".data, .ok "x".data, .ok "x".data⟩ = .ok [] ∧
    call_openai_chat ⟨true, .raisesOther "auth".data, .ok [], .ok []⟩ = .ok [] ∧
    call_openai_chat ⟨true, .raisesUnicodeError, .raisesOther "boom".data, .ok []⟩
      = .error "boom".data :=
  ⟨(C8_empty_on_failure_unless_fallback_raises _).1 rfl,
   (C8_empty_on_failure_unless_fallback_raises _).2.1 _ rfl rfl,
   (C8_empty_on_failure_unless_fallback_raises _).2.2 _ rfl rfl rfl⟩

/-- C9: for every successful fetch (libraries present, no exception), the
result never exceeds the 200000-character ceiling; on a non-text,
non-HTML content type it is the stripped raw response text truncated to
the ceiling, and on a text/HTML content type it is the soup-extracted
text flattened to non-empty stripped lines joined by newlines, capped at
the same ceiling. -/
theorem C9_fetch_truncated (env : FetchEnv)
    (hlib : env.libsAvailable = true) (hraise : env.raisesException = false) :
    (fetch_text_from_url env).length ≤ 200000 ∧
    (containsSub "text".data env.contentType = false →
      containsSub "html".data env.contentType = false →
      fetch_text_from_url env = (pyStrip env.respText).take 200000) ∧
    ((containsSub "text".data env.contentType = true ∨
      containsSub "html".data env.contentType = true) →
      fetch_text_from_url env =
        (joinNL (((splitlines env.soupText).map pyStrip).filter
          (fun ln => !ln.isEmpty))).take 200000) := by
  obtain ⟨lib, rs, ct, rt, stx⟩ := env
  simp only at hlib hraise
  subst hlib
  subst hraise
  by_cases h1 : containsSub "text".data ct = true <;>
    by_cases h2 : containsSub "html".data ct = true <;>
      simp [fetch_text_from_url, h1, h2, List.length_take]

/-- C9 witness: a successful HTML fetch stays within the ceiling. -/
theorem C9_witness :
    (fetch_text_from_url
      ⟨true, false, "text/html".data, "raw page".data, "a\n\nb ".data⟩).length
      ≤ 200000 :=
  (C9_fetch_truncated _ rfl rfl).1

theorem fdiv_neg_two (m : Nat) :
    Int.fdiv (-(m : Int)) 2 = -(((m + 1) / 2 : Nat) : Int) := by
  rw [Int.fdiv_eq_ediv]
  all_goals omega

/-- C10: for a positive limit, `truncate` returns strings of length at
most the limit unchanged; a longer string becomes the first
`limit / 2` characters, the elision marker, and the last
`(limit + 1) / 2` characters (for the even default limit 24000 both
halves are 12000), so the output exceeds the limit by exactly the length
of the inserted marker. -/
theorem C10_truncate_spec (text : List Char) (m : Nat) (hm : 0 < m) :
    truncate text m =
      (if text.length ≤ m then text
       else text.take (m / 2) ++ elisionMark ++
         text.drop (text.length - (m + 1) / 2)) ∧
    (m < text.length → (truncate text m).length = m + elisionMark.length) := by
  have hfd : Int.fdiv (-(m : Int)) 2 = -(((m + 1) / 2 : Nat) : Int) := fdiv_neg_two m
  have hslice : text.length ≤ m ∨
      pySliceFrom text (Int.fdiv (-(m : Int)) 2) =
        text.drop (text.length - (m + 1) / 2) := by
    by_cases hle : text.length ≤ m
    · exact Or.inl hle
    · refine Or.inr ?_
      rw [hfd]
      unfold pySliceFrom
      rw [if_pos (by omega)]
      congr 1
      omega
  constructor
  · unfold truncate
    by_cases hle : text.length ≤ m
    · rw [if_pos hle, if_pos hle]
    · rw [if_neg hle, if_neg hle]
      rcases hslice with h | h
      · exact absurd h hle
      · rw [h]
  · intro hlt
    unfold truncate
    rw [if_neg (by omega)]
    rcases hslice with h | h
    · omega
    · rw [h]
      simp [List.length_append, List.length_take, List.length_drop]
      omega

/-- C10 witness: a 24001-character string truncated at the default limit
24000 has length 24000 plus the marker length. -/
theorem C10_witness :
    (truncate (List.replicate 24001 'x') 24000).length =
      24000 + elisionMark.length :=
  (C10_truncate_spec _ 24000 (by norm_num)).2
    (by rw [List.length_replicate]; norm_num)
